import Mathlib

/-!
Verification of the cookietemple template-synchronization workflow
(`cookietemple/sync/sync.py`) against its specification.

The Python code is shallowly embedded: pure helpers become Lean functions,
and the effectful `TemplateSync.sync` workflow becomes a function from an
environment (describing the outcome of every external operation the code
performs) to a result record (termination kind, final checked-out branch,
whether the restoration step ran, the session flags).
-/

namespace Cookietemple

/-! ## String helpers

Models of the Python string operations the sync module relies on:
substring containment (Python's `in` on strings) and `fnmatch` glob
matching.  `fnmatch` is modelled for `*`, `?` and literal characters;
character classes (`[seq]`) are not used by any glob in the claims. -/

/-- Does `hay` start with `needle`?  (Arguments: haystack, needle.) -/
def startsWithL : List Char → List Char → Bool
  | _, [] => true
  | [], _ :: _ => false
  | c :: cs, p :: ps => c == p && startsWithL cs ps

/-- Python's `needle in hay` on strings: `needle` occurs contiguously in
`hay`.  (Arguments: haystack, needle.) -/
def containsSub : List Char → List Char → Bool
  | [], needle => startsWithL [] needle
  | c :: rest, needle => startsWithL (c :: rest) needle || containsSub rest needle

/-- `fnmatch.fnmatch(name, pattern)` for patterns made of `*`, `?` and
literal characters (fnmatch compiles `*` to the regex `.*` and `?` to `.`).
First argument is the pattern, second the name; `*` matches any suffix
split of the remaining name. -/
def fnmatchCore : List Char → List Char → Bool
  | [], name => name.isEmpty
  | '?' :: ps, name =>
    match name with
    | [] => false
    | _ :: cs => fnmatchCore ps cs
  | '*' :: ps, name => name.tails.any (fun suffix => fnmatchCore ps suffix)
  | p :: ps, name =>
    match name with
    | [] => false
    | c :: cs => p == c && fnmatchCore ps cs

/-- `fnmatch.fnmatch(name, pattern)` on strings. -/
def fnmatch (name pattern : String) : Bool :=
  fnmatchCore pattern.data name.data

/-! ## Version comparator

`TemplateSync.has_template_version_changed` (sync.py lines 428-439).
`packaging.version` parses a version string into components; the claims
operate at the level of the parsed (major, minor, micro) triple, so the
triple is the model's input.  The source also returns the two version
strings; only the three classification booleans are modelled, since the
strings are just `str()` of the inputs. -/

structure Version where
  major : Nat
  minor : Nat
  micro : Nat
deriving DecidableEq, Repr

/-- The classification chain of `has_template_version_changed`:
`(is_major_update, is_minor_update, is_patch_update)`, computed from the
previously-synced version and the current template version. -/
def has_template_version_changed (last cur : Version) : Bool × Bool × Bool :=
  if last.major < cur.major then (true, false, false)
  else if last.minor < cur.minor then (false, true, false)
  else if last.micro < cur.micro then (false, false, true)
  else (false, false, false)

/-! ## Policy filter

`TemplateSync.check_sync_level` (sync.py lines 315-350) and
`TemplateSync.get_blacklisted_sync_globs` (lines 352-370).

A ConfigParser section is modelled as `Option (List (String × String))`:
`none` stands for `NoSectionError` (section or file missing), `some items`
for the parsed key/value items.  `sys.exit(1)` is modelled as `none` in
the result: the function terminates the process instead of returning. -/

/-- `check_sync_level`.  `none` means the process exits with status 1
(misconfigured section or `NoSectionError`).  The source consults only
`self.patch_update` and `self.minor_update`; `major_update` is carried in
the session but never read here, which the model mirrors. -/
def check_sync_level (sync_level_items : Option (List (String × String)))
    (patch_update minor_update major_update : Bool) : Option Bool :=
  match sync_level_items with
  | none => none
  | some level_item =>
    if level_item.length != 1
        || !(containsSub (level_item.head!.1.data) "ct_sync_level".data)
        || !((["major", "minor", "patch"] : List String).any
              (fun valid_lvl => level_item.head!.2 == valid_lvl)) then
      none
    else if patch_update then
      some (level_item.head!.2 != "minor" && level_item.head!.2 != "major")
    else if minor_update then
      some (level_item.head!.2 != "major")
    else
      some true

/-- `get_blacklisted_sync_globs`: the values of the
`sync_files_blacklisted` section; `none` models the `sys.exit(1)` on
`NoSectionError`. -/
def get_blacklisted_sync_globs
    (sync_files_blacklisted : Option (List (String × String))) :
    Option (List String) :=
  match sync_files_blacklisted with
  | none => none
  | some globs => some (globs.map (fun glob => glob.2))

/-! ## Changed-file filtering

From `commit_template_changes` (sync.py lines 198-213): the staged
changed files are split into blacklisted files (matching some glob) and
files to commit (the rest). -/

/-- `fnmatch.filter(names, pattern)`. -/
def fnmatchFilter (names : List String) (pattern : String) : List String :=
  names.filter (fun n => fnmatch n pattern)

/-- The `for pattern in globs: blacklisted_changed_files += fnmatch.filter(...)`
loop of `commit_template_changes`. -/
def blacklisted_changed_files (changed_files globs : List String) : List String :=
  globs.foldl (fun acc pattern => acc ++ fnmatchFilter changed_files pattern) []

/-- `files_to_commit = [file for file in changed_files if file not in
blacklisted_changed_files]`. -/
def files_to_commit (changed_files globs : List String) : List String :=
  changed_files.filter
    (fun file => !((blacklisted_changed_files changed_files globs).contains file))

/-- The spec's `filterExcluded(changedFiles, globs) -> (included, excluded)`
contract, realised by the code of `commit_template_changes`. -/
def filterExcluded (changed_files globs : List String) :
    List String × List String :=
  (files_to_commit changed_files globs, blacklisted_changed_files changed_files globs)

/-! ## Pull-request handling

`make_pull_request`, `submit_pull_request` and `check_pull_request_exists`
(sync.py lines 240-313).  The GitHub API is a collaborator: the model's
input is the list of titles of the repository's open pull requests. -/

/-- The fixed marker looked for in open PR titles:
`'Important cookietemple template update' in pull_request['title']`. -/
def syncMarker : String := "Important cookietemple template update"

/-- The title of a submitted sync PR:
`f'Important cookietemple template update {self.new_template_version} released!'`. -/
def pr_title (new_template_version : String) : String :=
  "Important cookietemple template update " ++ new_template_version ++ " released!"

/-- `check_pull_request_exists`: some open PR's title contains the sync
marker as a substring. -/
def check_pull_request_exists (open_pr_titles : List String) : Bool :=
  open_pr_titles.any (fun t => containsSub t.data syncMarker.data)

/-- `make_pull_request`: submit a new PR iff no open PR carries the sync
marker.  Returns whether a POST was made and, if so, the submitted title. -/
def make_pull_request (open_pr_titles : List String)
    (new_template_version : String) : Bool × Option String :=
  if !(check_pull_request_exists open_pr_titles) then
    (true, some (pr_title new_template_version))
  else
    (false, none)

/-! ## The sync orchestrator

`TemplateSync.sync` (sync.py lines 74-97) and the steps it sequences.
The environment fixes the outcome of every external operation; the model
then replays the Python control flow, including its exception semantics:

* `sys.exit(1)` raises `SystemExit`, which derives from `BaseException`,
  NOT from `Exception`; the `except Exception` handler in `sync` (line 89)
  therefore does not catch it, and neither does the `except Exception` in
  `commit_template_changes` (line 218).  A `sys.exit(1)` inside
  `push_template_branch`, `submit_pull_request` or
  `get_blacklisted_sync_globs` terminates the process directly.
* an uncaught ordinary exception (e.g. `choose_domain` failing inside
  `make_template_project`, which `sync` does not wrap) also terminates the
  process, with a traceback.
* only ordinary exceptions raised between `push_template_branch` and
  `make_pull_request` reach the handler at line 89, which calls
  `reset_target_dir` before exiting. -/

/-- How the process ends. -/
inductive Termination
  | exitZero
  | exitOne
  | uncaughtException
deriving DecidableEq, Repr

/-- Outcomes of the external operations performed during one sync session. -/
structure SyncEnv where
  /-- `.cookietemple.yml` exists in the project directory. -/
  hasCtYml : Bool
  /-- the project directory is a git repository. -/
  isGitRepo : Bool
  /-- `repo.active_branch.name` recorded by `inspect_sync_dir`. -/
  originalBranch : String
  /-- `repo.is_dirty(untracked_files=True)` at session start. -/
  dirtyAtStart : Bool
  /-- `checkout('origin/TEMPLATE', b='TEMPLATE')` succeeds. -/
  remoteTemplateCheckoutOk : Bool
  /-- fallback `checkout('TEMPLATE')` succeeds. -/
  localTemplateCheckoutOk : Bool
  /-- deleting the TEMPLATE branch files succeeds. -/
  deleteFilesOk : Bool
  /-- `make_template_project` (choose_domain + copy_tree) succeeds. -/
  regenOk : Bool
  /-- `repo.is_dirty(untracked_files=True)` after regeneration. -/
  dirtyAfterRegen : Bool
  /-- `repo.git.add(A=True)` succeeds. -/
  stageOk : Bool
  /-- `[item.a_path for item in self.repo.index.diff('HEAD')]`. -/
  changedFiles : List String
  /-- the `sync_files_blacklisted` section (`none` = `NoSectionError`). -/
  blacklistSection : Option (List (String × String))
  /-- exit status of the spawned `git commit` subprocess. -/
  commitExitCode : Nat
  /-- exit status of the spawned `git stash` subprocess. -/
  stashExitCode : Nat
  /-- `repo.git.push(force=True)` raises `GitCommandError`. -/
  pushGitError : Bool
  /-- the open-PR query (`requests.get` / `r.json()`) raises an ordinary
  exception. -/
  prQueryRaises : Bool
  /-- titles of the repository's open pull requests. -/
  openPrTitles : List String
  /-- `requests.post` in `submit_pull_request` raises an ordinary exception. -/
  postRaises : Bool
  /-- HTTP status code returned by the PR submission POST. -/
  postStatus : Nat
  /-- `reset_target_dir`'s checkout of the original branch succeeds. -/
  resetCheckoutOk : Bool
deriving DecidableEq, Repr

/-- Observable outcome of one sync session. -/
structure SyncResult where
  termination : Termination
  /-- the branch checked out when the process ends. -/
  finalBranch : String
  /-- `reset_target_dir` was invoked (whether or not its checkout worked). -/
  resetRan : Bool
  /-- `self.made_changes` at process end. -/
  made_changes : Bool
  /-- the `git commit` subprocess was spawned. -/
  commitLaunched : Bool
  /-- the file list handed to `git commit`. -/
  filesCommitted : List String
  /-- `push_template_branch` was invoked. -/
  pushAttempted : Bool
  /-- the PR-submission POST was made. -/
  prPosted : Bool
deriving DecidableEq, Repr

/-- `reset_target_dir` (sync.py lines 372-381) followed by the given
normal termination: checkout of the original branch, `sys.exit(1)` if the
checkout fails. -/
def reset_target_dir (env : SyncEnv) (normalEnd : Termination)
    (made_changes commitLaunched : Bool) (filesCommitted : List String)
    (pushAttempted prPosted : Bool) : SyncResult :=
  if env.resetCheckoutOk then
    { termination := normalEnd, finalBranch := env.originalBranch,
      resetRan := true, made_changes := made_changes,
      commitLaunched := commitLaunched, filesCommitted := filesCommitted,
      pushAttempted := pushAttempted, prPosted := prPosted }
  else
    { termination := Termination.exitOne, finalBranch := "TEMPLATE",
      resetRan := true, made_changes := made_changes,
      commitLaunched := commitLaunched, filesCommitted := filesCommitted,
      pushAttempted := pushAttempted, prPosted := prPosted }

/-- The `if self.made_changes:` block of `sync` (lines 85-94): push the
TEMPLATE branch, then make a pull request, with the `except Exception`
handler (reset then `sys.exit(1)`) around both, followed by the normal
`reset_target_dir` call at line 94.  `committed` is the file list that
was handed to the spawned `git commit`. -/
def push_and_make_pr (env : SyncEnv) (committed : List String) : SyncResult :=
  if env.pushGitError then
    -- push_template_branch calls sys.exit(1) itself: SystemExit is not
    -- caught by `except Exception` at line 89, no reset
    { termination := Termination.exitOne, finalBranch := "TEMPLATE",
      resetRan := false, made_changes := true, commitLaunched := true,
      filesCommitted := committed, pushAttempted := true, prPosted := false }
  else if env.prQueryRaises then
    -- an ordinary exception: caught at line 89, reset, then exit(1)
    reset_target_dir env Termination.exitOne true true committed true false
  else if check_pull_request_exists env.openPrTitles then
    -- an open sync PR exists: push suffices, no POST; then line 94 reset
    reset_target_dir env Termination.exitZero true true committed true false
  else if env.postRaises then
    -- ordinary exception from requests.post: caught at line 89
    reset_target_dir env Termination.exitOne true true committed true false
  else if env.postStatus != 201 then
    -- submit_pull_request calls sys.exit(1): SystemExit, no reset
    { termination := Termination.exitOne, finalBranch := "TEMPLATE",
      resetRan := false, made_changes := true, commitLaunched := true,
      filesCommitted := committed, pushAttempted := true, prPosted := true }
  else
    -- PR created (201); then line 94 reset
    reset_target_dir env Termination.exitZero true true committed true true

/-- `TemplateSync.sync`: the full workflow, replaying the Python control
flow over the environment. -/
def sync (env : SyncEnv) (new_template_version : String) : SyncResult :=
  -- inspect_sync_dir
  if !env.hasCtYml then
    { termination := Termination.exitOne, finalBranch := env.originalBranch,
      resetRan := false, made_changes := false, commitLaunched := false,
      filesCommitted := [], pushAttempted := false, prPosted := false }
  else if !env.isGitRepo then
    { termination := Termination.exitOne, finalBranch := env.originalBranch,
      resetRan := false, made_changes := false, commitLaunched := false,
      filesCommitted := [], pushAttempted := false, prPosted := false }
  else if env.dirtyAtStart then
    { termination := Termination.exitOne, finalBranch := env.originalBranch,
      resetRan := false, made_changes := false, commitLaunched := false,
      filesCommitted := [], pushAttempted := false, prPosted := false }
  -- checkout_template_branch
  else if !env.remoteTemplateCheckoutOk && !env.localTemplateCheckoutOk then
    { termination := Termination.exitOne, finalBranch := env.originalBranch,
      resetRan := false, made_changes := false, commitLaunched := false,
      filesCommitted := [], pushAttempted := false, prPosted := false }
  -- now on the TEMPLATE branch
  -- delete_template_branch_files
  else if !env.deleteFilesOk then
    { termination := Termination.exitOne, finalBranch := "TEMPLATE",
      resetRan := false, made_changes := false, commitLaunched := false,
      filesCommitted := [], pushAttempted := false, prPosted := false }
  -- make_template_project: an exception here is not caught anywhere in sync
  else if !env.regenOk then
    { termination := Termination.uncaughtException, finalBranch := "TEMPLATE",
      resetRan := false, made_changes := false, commitLaunched := false,
      filesCommitted := [], pushAttempted := false, prPosted := false }
  -- commit_template_changes
  else if !env.dirtyAfterRegen then
    -- `return False`: made_changes stays false; sync skips push/PR and
    -- calls reset_target_dir (line 94)
    reset_target_dir env Termination.exitZero false false [] false false
  else if !env.stageOk then
    -- `repo.git.add` raised: caught by `except Exception` at line 218,
    -- which prints and calls sys.exit(1); SystemExit then propagates
    { termination := Termination.exitOne, finalBranch := "TEMPLATE",
      resetRan := false, made_changes := false, commitLaunched := false,
      filesCommitted := [], pushAttempted := false, prPosted := false }
  else
    match env.blacklistSection with
    | none =>
      -- get_blacklisted_sync_globs calls sys.exit(1); SystemExit is not
      -- an Exception, so neither handler catches it: no reset
      { termination := Termination.exitOne, finalBranch := "TEMPLATE",
        resetRan := false, made_changes := false, commitLaunched := false,
        filesCommitted := [], pushAttempted := false, prPosted := false }
    | some blSection =>
      -- `git commit` and `git stash` are spawned via Popen with their
      -- exit codes never inspected; made_changes is set unconditionally
      push_and_make_pr env
        (files_to_commit env.changedFiles (blSection.map (fun glob => glob.2)))

/-- A session in which regeneration fails after a clean start: used to
refute the unconditional restoration claim. -/
def regenFailureEnv : SyncEnv :=
  { hasCtYml := true, isGitRepo := true, originalBranch := "main",
    dirtyAtStart := false, remoteTemplateCheckoutOk := true,
    localTemplateCheckoutOk := true, deleteFilesOk := true, regenOk := false,
    dirtyAfterRegen := true, stageOk := true, changedFiles := [],
    blacklistSection := some [], commitExitCode := 0, stashExitCode := 0,
    pushGitError := false, prQueryRaises := false, openPrTitles := [],
    postRaises := false, postStatus := 201, resetCheckoutOk := true }

/-- A fully successful session over one changed file, used as witness
input. -/
def happyEnv : SyncEnv :=
  { hasCtYml := true, isGitRepo := true, originalBranch := "main",
    dirtyAtStart := false, remoteTemplateCheckoutOk := true,
    localTemplateCheckoutOk := false, deleteFilesOk := true, regenOk := true,
    dirtyAfterRegen := true, stageOk := true, changedFiles := ["README.md"],
    blacklistSection := some [], commitExitCode := 0, stashExitCode := 0,
    pushGitError := false, prQueryRaises := false, openPrTitles := [],
    postRaises := false, postStatus := 201, resetCheckoutOk := true }

/-- A session in which regeneration reproduces the working copy exactly
(no changes), used as witness input for the no-op path. -/
def noChangesEnv : SyncEnv :=
  { hasCtYml := true, isGitRepo := true, originalBranch := "main",
    dirtyAtStart := false, remoteTemplateCheckoutOk := true,
    localTemplateCheckoutOk := false, deleteFilesOk := true, regenOk := true,
    dirtyAfterRegen := false, stageOk := true, changedFiles := [],
    blacklistSection := some [], commitExitCode := 0, stashExitCode := 0,
    pushGitError := false, prQueryRaises := false, openPrTitles := [],
    postRaises := false, postStatus := 201, resetCheckoutOk := true }

/-! ## Helper lemmas -/

theorem foldl_append_flatten {α β : Type} (f : α → List β) (l : List α) :
    ∀ acc : List β, l.foldl (fun a p => a ++ f p) acc = acc ++ (l.map f).flatten := by
  induction l with
  | nil => intro acc; simp
  | cons p ps ih => intro acc; simp [ih, List.append_assoc]

theorem mem_blacklisted_iff (changed_files globs : List String) (f : String) :
    f ∈ blacklisted_changed_files changed_files globs ↔
      f ∈ changed_files ∧ ∃ g ∈ globs, fnmatch f g = true := by
  unfold blacklisted_changed_files
  rw [foldl_append_flatten]
  simp only [List.nil_append, List.mem_flatten, List.mem_map, fnmatchFilter,
    List.mem_filter]
  constructor
  · rintro ⟨l, ⟨g, hg, rfl⟩, hmem⟩
    rw [List.mem_filter] at hmem
    exact ⟨hmem.1, g, hg, hmem.2⟩
  · rintro ⟨hf, g, hg, hm⟩
    exact ⟨changed_files.filter (fun n => fnmatch n g), ⟨g, hg, rfl⟩,
      List.mem_filter.mpr ⟨hf, hm⟩⟩

theorem contains_blacklisted_eq (changed_files globs : List String) (f : String)
    (hf : f ∈ changed_files) :
    (blacklisted_changed_files changed_files globs).contains f
      = globs.any (fun g => fnmatch f g) := by
  rw [Bool.eq_iff_iff, List.elem_iff, List.any_eq_true,
    mem_blacklisted_iff changed_files globs f]
  exact ⟨fun h => h.2, fun h => ⟨hf, h⟩⟩

theorem files_to_commit_eq (changed_files globs : List String) :
    files_to_commit changed_files globs =
      changed_files.filter (fun file => !(globs.any (fun g => fnmatch file g))) := by
  unfold files_to_commit
  apply List.filter_congr
  intro f hf
  rw [contains_blacklisted_eq changed_files globs f hf]

theorem startsWithL_append (needle suf : List Char) :
    startsWithL (needle ++ suf) needle = true := by
  induction needle with
  | nil => simp [startsWithL]
  | cons n ns ih => simp [startsWithL, ih]

theorem containsSub_append (pre needle suf : List Char) :
    containsSub (pre ++ (needle ++ suf)) needle = true := by
  induction pre with
  | nil =>
    cases needle with
    | nil => cases suf <;> simp [containsSub, startsWithL]
    | cons n ns =>
      have h1 := startsWithL_append (n :: ns) suf
      rw [List.cons_append] at h1
      simp only [List.nil_append, List.cons_append, containsSub, List.append_eq,
        h1, Bool.true_or]
  | cons c cs ih =>
    simp only [List.cons_append, containsSub, List.append_eq] at ih ⊢
    rw [ih]
    simp only [Bool.or_true]

theorem any_eq_false_iff {α : Type} (p : α → Bool) (l : List α) :
    l.any p = false ↔ ∀ x ∈ l, p x = false := by
  constructor
  · intro h x hx
    cases hpx : p x
    · rfl
    · have hc : l.any p = true := List.any_eq_true.mpr ⟨x, hx, hpx⟩
      rw [h] at hc
      exact Bool.noConfusion hc
  · intro h
    cases hany : l.any p
    · rfl
    · rw [List.any_eq_true] at hany
      obtain ⟨x, hx, hpx⟩ := hany
      rw [h x hx] at hpx
      exact Bool.noConfusion hpx

theorem perm_any_eq {α : Type} (p : α → Bool) {l l' : List α} (h : l.Perm l') :
    l.any p = l'.any p := by
  rw [Bool.eq_iff_iff, List.any_eq_true, List.any_eq_true]
  constructor <;> rintro ⟨x, hx, hp⟩
  · exact ⟨x, h.mem_iff.mp hx, hp⟩
  · exact ⟨x, h.mem_iff.mpr hx, hp⟩

theorem push_and_make_pr_flags (env : SyncEnv) (committed : List String) :
    (push_and_make_pr env committed).made_changes = true ∧
    (push_and_make_pr env committed).commitLaunched = true ∧
    (push_and_make_pr env committed).filesCommitted = committed ∧
    (push_and_make_pr env committed).pushAttempted = true := by
  unfold push_and_make_pr reset_target_dir
  split_ifs <;> exact ⟨rfl, rfl, rfl, rfl⟩

theorem sync_commit_path (env : SyncEnv) (v : String)
    (bl : List (String × String))
    (hyml : env.hasCtYml = true) (hrepo : env.isGitRepo = true)
    (hdirty : env.dirtyAtStart = false)
    (hrto : env.remoteTemplateCheckoutOk = true)
    (hdel : env.deleteFilesOk = true) (hregen : env.regenOk = true)
    (hdirty2 : env.dirtyAfterRegen = true) (hstage : env.stageOk = true)
    (hbl : env.blacklistSection = some bl) :
    sync env v = push_and_make_pr env
      (files_to_commit env.changedFiles (bl.map (fun glob => glob.2))) := by
  simp [sync, hyml, hrepo, hdirty, hrto, hdel, hregen, hdirty2, hstage, hbl]

/-! ## Claim theorems -/

/-- C1 (counterexample): when regeneration fails (an exception from the
scaffold engine inside `make_template_project`, which `sync` does not
wrap in any handler), the process dies by an uncaught exception while
still on the TEMPLATE branch: `reset_target_dir` never runs and the final
branch differs from the recorded original branch `main`, refuting the
unconditional restoration claim. -/
theorem C1_restoration_counterexample :
    (sync regenFailureEnv "1.0.0").termination
      = Termination.uncaughtException ∧
    (sync regenFailureEnv "1.0.0").resetRan = false ∧
    (sync regenFailureEnv "1.0.0").finalBranch = "TEMPLATE" ∧
    regenFailureEnv.originalBranch = "main" ∧
    regenFailureEnv.resetCheckoutOk = true := by
  decide

/-- C1 (amended): the branch recorded at the start of inspection is
restored on success — with changes (push, then either an existing sync PR
or a 201 PR creation) or without — and on remote-operation failures that
surface as ordinary exceptions (PR-query failure, `requests.post`
failure), which the `except Exception` handler catches before exiting.
It is NOT restored when regeneration fails, when the blacklist
configuration section is missing during committing, when the push fails
with a git-command error, or when the PR submission returns a status
other than 201: those paths terminate via an uncaught exception or
`sys.exit(1)` (`SystemExit` is not an `Exception`), leaving the
repository on the TEMPLATE branch with no restoration step. -/
theorem C1_restoration_amended (env : SyncEnv) (v : String)
    (bl : List (String × String))
    (hyml : env.hasCtYml = true) (hrepo : env.isGitRepo = true)
    (hdirty : env.dirtyAtStart = false)
    (hrto : env.remoteTemplateCheckoutOk = true)
    (hdel : env.deleteFilesOk = true) (hrok : env.resetCheckoutOk = true) :
    (env.regenOk = true → env.dirtyAfterRegen = false →
      (sync env v).resetRan = true ∧
      (sync env v).finalBranch = env.originalBranch ∧
      (sync env v).termination = Termination.exitZero) ∧
    (env.regenOk = true → env.dirtyAfterRegen = true → env.stageOk = true →
      env.blacklistSection = some bl → env.pushGitError = false →
      env.prQueryRaises = false → env.postRaises = false →
      env.postStatus = 201 →
      (sync env v).resetRan = true ∧
      (sync env v).finalBranch = env.originalBranch ∧
      (sync env v).termination = Termination.exitZero) ∧
    (env.regenOk = true → env.dirtyAfterRegen = true → env.stageOk = true →
      env.blacklistSection = some bl → env.pushGitError = false →
      env.prQueryRaises = true →
      (sync env v).resetRan = true ∧
      (sync env v).finalBranch = env.originalBranch ∧
      (sync env v).termination = Termination.exitOne) ∧
    (env.regenOk = true → env.dirtyAfterRegen = true → env.stageOk = true →
      env.blacklistSection = some bl → env.pushGitError = false →
      env.prQueryRaises = false →
      check_pull_request_exists env.openPrTitles = false →
      env.postRaises = true →
      (sync env v).resetRan = true ∧
      (sync env v).finalBranch = env.originalBranch ∧
      (sync env v).termination = Termination.exitOne) ∧
    (env.regenOk = false →
      (sync env v).resetRan = false ∧
      (sync env v).finalBranch = "TEMPLATE") ∧
    (env.regenOk = true → env.dirtyAfterRegen = true → env.stageOk = true →
      env.blacklistSection = none →
      (sync env v).resetRan = false ∧
      (sync env v).finalBranch = "TEMPLATE") ∧
    (env.regenOk = true → env.dirtyAfterRegen = true → env.stageOk = true →
      env.blacklistSection = some bl → env.pushGitError = true →
      (sync env v).resetRan = false ∧
      (sync env v).finalBranch = "TEMPLATE") ∧
    (env.regenOk = true → env.dirtyAfterRegen = true → env.stageOk = true →
      env.blacklistSection = some bl → env.pushGitError = false →
      env.prQueryRaises = false →
      check_pull_request_exists env.openPrTitles = false →
      env.postRaises = false → env.postStatus ≠ 201 →
      (sync env v).resetRan = false ∧
      (sync env v).finalBranch = "TEMPLATE") := by
  refine ⟨?_, ?_, ?_, ?_, ?_, ?_, ?_, ?_⟩
  · intro h1 h2
    simp [sync, reset_target_dir, hyml, hrepo, hdirty, hrto, hdel, hrok, h1, h2]
  · intro h1 h2 h3 hbl h4 h5 h6 h7
    rw [sync_commit_path env v bl hyml hrepo hdirty hrto hdel h1 h2 h3 hbl]
    by_cases hex : check_pull_request_exists env.openPrTitles = true <;>
      simp [push_and_make_pr, reset_target_dir, hrok, h4, h5, h6, h7, hex]
  · intro h1 h2 h3 hbl h4 h5
    rw [sync_commit_path env v bl hyml hrepo hdirty hrto hdel h1 h2 h3 hbl]
    simp [push_and_make_pr, reset_target_dir, hrok, h4, h5]
  · intro h1 h2 h3 hbl h4 h5 hex h6
    rw [sync_commit_path env v bl hyml hrepo hdirty hrto hdel h1 h2 h3 hbl]
    simp [push_and_make_pr, reset_target_dir, hrok, h4, h5, hex, h6]
  · intro h1
    simp [sync, hyml, hrepo, hdirty, hrto, hdel, h1]
  · intro h1 h2 h3 hbl
    simp [sync, hyml, hrepo, hdirty, hrto, hdel, h1, h2, h3, hbl]
  · intro h1 h2 h3 hbl h4
    rw [sync_commit_path env v bl hyml hrepo hdirty hrto hdel h1 h2 h3 hbl]
    simp [push_and_make_pr, h4]
  · intro h1 h2 h3 hbl h4 h5 hex h6 h7
    rw [sync_commit_path env v bl hyml hrepo hdirty hrto hdel h1 h2 h3 hbl]
    simp [push_and_make_pr, reset_target_dir, h4, h5, hex, h6, h7]

/-- C1 (witness): a fully successful session restores the original
branch and exits normally. -/
theorem C1_restoration_amended_witness :
    (sync happyEnv "1.0.0").resetRan = true ∧
    (sync happyEnv "1.0.0").finalBranch = happyEnv.originalBranch ∧
    (sync happyEnv "1.0.0").termination = Termination.exitZero :=
  (C1_restoration_amended happyEnv "1.0.0" [] rfl rfl rfl rfl rfl rfl).2.1
    rfl rfl rfl rfl rfl rfl rfl rfl

/-- C4: when the working copy is unchanged after regeneration, the
session is a no-op: no `git commit` is spawned, the made-changes flag
stays false, no push is attempted, no pull request is posted, and (when
the final checkout works) the session ends successfully on the original
branch. -/
theorem C4_no_changes_is_no_op (env : SyncEnv) (v : String)
    (hyml : env.hasCtYml = true) (hrepo : env.isGitRepo = true)
    (hdirty : env.dirtyAtStart = false)
    (hrto : env.remoteTemplateCheckoutOk = true)
    (hdel : env.deleteFilesOk = true) (hregen : env.regenOk = true)
    (hclean : env.dirtyAfterRegen = false) :
    (sync env v).made_changes = false ∧
    (sync env v).commitLaunched = false ∧
    (sync env v).filesCommitted = [] ∧
    (sync env v).pushAttempted = false ∧
    (sync env v).prPosted = false ∧
    (env.resetCheckoutOk = true →
      (sync env v).termination = Termination.exitZero ∧
      (sync env v).finalBranch = env.originalBranch) := by
  by_cases hrok : env.resetCheckoutOk = true <;>
    simp [sync, reset_target_dir, hyml, hrepo, hdirty, hrto, hdel, hregen,
      hclean, hrok]

/-- C4 (witness): the no-op facts on a concrete clean session. -/
theorem C4_no_changes_is_no_op_witness :
    (sync noChangesEnv "1.0.0").made_changes = false ∧
    (sync noChangesEnv "1.0.0").commitLaunched = false ∧
    (sync noChangesEnv "1.0.0").filesCommitted = [] ∧
    (sync noChangesEnv "1.0.0").pushAttempted = false ∧
    (sync noChangesEnv "1.0.0").prPosted = false ∧
    (noChangesEnv.resetCheckoutOk = true →
      (sync noChangesEnv "1.0.0").termination = Termination.exitZero ∧
      (sync noChangesEnv "1.0.0").finalBranch
        = noChangesEnv.originalBranch) :=
  C4_no_changes_is_no_op noChangesEnv "1.0.0" rfl rfl rfl rfl rfl rfl rfl

/-- C10: once staging succeeds on the commit path, the whole session
outcome is independent of the exit statuses of the spawned `git commit`
and `git stash` subprocesses (they are `Popen`ed and never waited on or
inspected), and the made-changes flag is set to true and the commit
reported as made unconditionally — a failing commit can never reach the
error branch. -/
theorem C10_commit_subprocess_ignored (env : SyncEnv) (v : String)
    (c₁ s₁ c₂ s₂ : Nat) (bl : List (String × String))
    (hyml : env.hasCtYml = true) (hrepo : env.isGitRepo = true)
    (hdirty : env.dirtyAtStart = false)
    (hrto : env.remoteTemplateCheckoutOk = true)
    (hdel : env.deleteFilesOk = true) (hregen : env.regenOk = true)
    (hdirty2 : env.dirtyAfterRegen = true) (hstage : env.stageOk = true)
    (hbl : env.blacklistSection = some bl) :
    (sync { env with commitExitCode := c₁, stashExitCode := s₁ } v
      = sync { env with commitExitCode := c₂, stashExitCode := s₂ } v) ∧
    (sync env v).made_changes = true ∧
    (sync env v).commitLaunched = true := by
  refine ⟨rfl, ?_, ?_⟩ <;>
    rw [sync_commit_path env v bl hyml hrepo hdirty hrto hdel hregen hdirty2
      hstage hbl]
  · exact (push_and_make_pr_flags env _).1
  · exact (push_and_make_pr_flags env _).2.1

/-- C10 (witness): a session whose `git commit` and `git stash` exit with
status 1 is indistinguishable from one where they exit with 0, and still
reports changes made. -/
theorem C10_commit_subprocess_ignored_witness :
    (sync { happyEnv with commitExitCode := 1, stashExitCode := 1 } "1.0.0"
      = sync { happyEnv with commitExitCode := 0, stashExitCode := 0 } "1.0.0") ∧
    (sync happyEnv "1.0.0").made_changes = true ∧
    (sync happyEnv "1.0.0").commitLaunched = true :=
  C10_commit_subprocess_ignored happyEnv "1.0.0" 1 1 0 0 []
    rfl rfl rfl rfl rfl rfl rfl rfl rfl

/-- C2 (counterexample): the claim says the classification compares
components for *inequality*; the code compares with `<`.  At
previously-synced version 2.0.0 and current version 1.5.0 the majors are
unequal, so the claim demands a major-update, but
`has_template_version_changed` yields a minor-update
(`2 < 1` fails, then `0 < 5` holds). -/
theorem C2_version_tier_counterexample :
    has_template_version_changed ⟨2, 0, 0⟩ ⟨1, 5, 0⟩ = (false, true, false) ∧
    Version.major ⟨2, 0, 0⟩ ≠ Version.major ⟨1, 5, 0⟩ := by
  decide

/-- C2 (amended): the classification is by strict increase, not
inequality: major-update iff the major strictly increased; else
minor-update iff the minor strictly increased; else patch-update iff the
micro strictly increased; otherwise no update. -/
theorem C2_version_tier_amended (last cur : Version) :
    ((has_template_version_changed last cur).1 = true ↔
      last.major < cur.major) ∧
    ((has_template_version_changed last cur).2.1 = true ↔
      ¬ last.major < cur.major ∧ last.minor < cur.minor) ∧
    ((has_template_version_changed last cur).2.2 = true ↔
      ¬ last.major < cur.major ∧ ¬ last.minor < cur.minor ∧
        last.micro < cur.micro) := by
  unfold has_template_version_changed
  by_cases h1 : last.major < cur.major <;>
    by_cases h2 : last.minor < cur.minor <;>
    by_cases h3 : last.micro < cur.micro <;>
    simp [h1, h2, h3]

/-- C3: `check_sync_level` gates a PR exactly as claimed: a patch-tier
update passes only under policy `patch`; a minor-tier update passes under
policies `patch` and `minor`; a major-tier update passes under every
valid policy value. -/
theorem C3_should_create_pr (lvl : String)
    (h : lvl = "patch" ∨ lvl = "minor" ∨ lvl = "major") :
    check_sync_level (some [("ct_sync_level", lvl)]) true false false
      = some (lvl == "patch") ∧
    check_sync_level (some [("ct_sync_level", lvl)]) false true false
      = some (lvl == "patch" || lvl == "minor") ∧
    check_sync_level (some [("ct_sync_level", lvl)]) false false true
      = some true := by
  rcases h with h | h | h <;> subst h <;> exact ⟨by decide, by decide, by decide⟩

/-- C3 (witness): the gating facts at the concrete policy `minor`. -/
theorem C3_should_create_pr_witness :
    check_sync_level (some [("ct_sync_level", "minor")]) true false false
      = some ("minor" == "patch") ∧
    check_sync_level (some [("ct_sync_level", "minor")]) false true false
      = some ("minor" == "patch" || "minor" == "minor") ∧
    check_sync_level (some [("ct_sync_level", "minor")]) false false true
      = some true :=
  C3_should_create_pr "minor" (Or.inr (Or.inl rfl))

/-- C6: for every pair of parsed versions, at most one of the three
classification booleans of `has_template_version_changed` is true, and on
equal versions all three are false. -/
theorem C6_update_flags_mutually_exclusive (last cur : Version) :
    (((has_template_version_changed last cur).1 &&
      (has_template_version_changed last cur).2.1) = false) ∧
    (((has_template_version_changed last cur).1 &&
      (has_template_version_changed last cur).2.2) = false) ∧
    (((has_template_version_changed last cur).2.1 &&
      (has_template_version_changed last cur).2.2) = false) ∧
    has_template_version_changed ⟨1, 2, 3⟩ ⟨1, 2, 3⟩ = (false, false, false) := by
  refine ⟨?_, ?_, ?_, by decide⟩ <;>
    · unfold has_template_version_changed
      split_ifs <;> rfl

/-- C7: a missing `sync_level` section, a section with a number of items
other than one, or a value outside patch/minor/major all make
`check_sync_level` terminate the process (modelled as `none`) instead of
proceeding with a default, for every combination of update flags. -/
theorem C7_malformed_policy_is_fatal (items : List (String × String))
    (k v : String) (p m M : Bool)
    (hlen : items.length ≠ 1)
    (hv : v ≠ "patch" ∧ v ≠ "minor" ∧ v ≠ "major") :
    check_sync_level none p m M = none ∧
    check_sync_level (some items) p m M = none ∧
    check_sync_level (some [(k, v)]) p m M = none := by
  refine ⟨rfl, ?_, ?_⟩
  · simp [check_sync_level, hlen]
  · simp [check_sync_level, hv.1, hv.2.1, hv.2.2]

/-- C7 (witness): an empty section and an invalid level value are both
fatal. -/
theorem C7_malformed_policy_is_fatal_witness :
    check_sync_level none true true true = none ∧
    check_sync_level (some []) true true true = none ∧
    check_sync_level (some [("ct_sync_level", "patchy")]) true true true
      = none :=
  C7_malformed_policy_is_fatal [] "ct_sync_level" "patchy" true true true
    (by decide) ⟨by decide, by decide, by decide⟩

/-- C9: when none of the three update flags is set, `check_sync_level`
returns true (a PR is allowed) for every valid policy value. -/
theorem C9_no_update_tier_allows_pr (lvl : String)
    (h : lvl = "patch" ∨ lvl = "minor" ∨ lvl = "major") :
    check_sync_level (some [("ct_sync_level", lvl)]) false false false
      = some true := by
  rcases h with h | h | h <;> subst h <;> decide

/-- C5: the changed-file filtering of `commit_template_changes` realises
the `filterExcluded` contract: on the spec's concrete example it returns
included `["a.txt", "d.yml"]` and excluded `["b/c.md"]`; in general the
excluded component holds exactly the changed files matching at least one
blacklist glob, the included component is exactly the changed files
matching none, and the result does not depend on the order of the
globs (the included list is invariant, the excluded component has the
same members). -/
theorem C5_filter_excluded (changed_files globs globs2 : List String)
    (f : String) (hperm : globs.Perm globs2) :
    filterExcluded ["a.txt", "b/c.md", "d.yml"] ["*.md"]
      = (["a.txt", "d.yml"], ["b/c.md"]) ∧
    (f ∈ (filterExcluded changed_files globs).2 ↔
      f ∈ changed_files ∧ ∃ g ∈ globs, fnmatch f g = true) ∧
    ((filterExcluded changed_files globs).1
      = changed_files.filter (fun file => !(globs.any (fun g => fnmatch file g)))) ∧
    ((filterExcluded changed_files globs).1
      = (filterExcluded changed_files globs2).1) ∧
    (f ∈ (filterExcluded changed_files globs).2 ↔
      f ∈ (filterExcluded changed_files globs2).2) := by
  refine ⟨by decide, ?_, ?_, ?_, ?_⟩
  · exact mem_blacklisted_iff changed_files globs f
  · exact files_to_commit_eq changed_files globs
  · show files_to_commit changed_files globs = files_to_commit changed_files globs2
    rw [files_to_commit_eq, files_to_commit_eq]
    apply List.filter_congr
    intro x _
    rw [perm_any_eq _ hperm]
  · show f ∈ blacklisted_changed_files changed_files globs ↔
      f ∈ blacklisted_changed_files changed_files globs2
    rw [mem_blacklisted_iff, mem_blacklisted_iff]
    constructor <;> rintro ⟨hf, g, hg, hm⟩
    · exact ⟨hf, g, hperm.mem_iff.mp hg, hm⟩
    · exact ⟨hf, g, hperm.mem_iff.mpr hg, hm⟩

/-- C5 (witness): the partition facts at the concrete changed files
`["a.txt", "b/c.md", "d.yml"]` and the glob lists `["*.md", "a.*"]` and
`["a.*", "*.md"]` (a permutation of each other). -/
theorem C5_filter_excluded_witness :
    (filterExcluded ["a.txt", "b/c.md", "d.yml"] ["*.md"]
      = (["a.txt", "d.yml"], ["b/c.md"]) ∧
    ("b/c.md" ∈ (filterExcluded ["a.txt", "b/c.md", "d.yml"] ["*.md", "a.*"]).2 ↔
      "b/c.md" ∈ (["a.txt", "b/c.md", "d.yml"] : List String) ∧
        ∃ g ∈ (["*.md", "a.*"] : List String), fnmatch "b/c.md" g = true) ∧
    ((filterExcluded ["a.txt", "b/c.md", "d.yml"] ["*.md", "a.*"]).1
      = (["a.txt", "b/c.md", "d.yml"] : List String).filter
          (fun file => !((["*.md", "a.*"] : List String).any
            (fun g => fnmatch file g)))) ∧
    ((filterExcluded ["a.txt", "b/c.md", "d.yml"] ["*.md", "a.*"]).1
      = (filterExcluded ["a.txt", "b/c.md", "d.yml"] ["a.*", "*.md"]).1) ∧
    ("b/c.md" ∈ (filterExcluded ["a.txt", "b/c.md", "d.yml"] ["*.md", "a.*"]).2 ↔
      "b/c.md" ∈ (filterExcluded ["a.txt", "b/c.md", "d.yml"] ["a.*", "*.md"]).2)) :=
  C5_filter_excluded ["a.txt", "b/c.md", "d.yml"] ["*.md", "a.*"]
    ["a.*", "*.md"] "b/c.md" (by decide)

/-- C8 (counterexample): the spec's detection rule is a title-*prefix*
match, but `check_pull_request_exists` tests substring containment.  With
a single open PR titled `"Re: Important cookietemple template update
1.0.0 released!"` no title carries the sync marker as a prefix, so the
claim requires a new PR, yet the code finds the marker as a substring and
submits nothing. -/
theorem C8_pull_request_counterexample :
    (make_pull_request
      ["Re: Important cookietemple template update 1.0.0 released!"]
      "1.0.0").1 = false ∧
    (["Re: Important cookietemple template update 1.0.0 released!"].any
      (fun t => startsWithL t.data syncMarker.data)) = false := by
  decide

/-- C8 (amended): a new PR is submitted iff no open PR title *contains*
the sync marker as a substring; when one does, nothing is posted; when a
new PR is posted its title is the fixed sync title, which embeds the new
template version as a substring. -/
theorem C8_pull_request_gating (open_pr_titles : List String) (v : String) :
    ((make_pull_request open_pr_titles v).1 = true ↔
      ∀ t ∈ open_pr_titles, containsSub t.data syncMarker.data = false) ∧
    ((make_pull_request open_pr_titles v).1 = false ↔
      check_pull_request_exists open_pr_titles = true) ∧
    ((make_pull_request open_pr_titles v).1 = true →
      (make_pull_request open_pr_titles v).2 = some (pr_title v)) ∧
    containsSub (pr_title v).data v.data = true := by
  have hkey : (make_pull_request open_pr_titles v).1
      = !(check_pull_request_exists open_pr_titles) := by
    cases hex : check_pull_request_exists open_pr_titles <;>
      simp [make_pull_request, hex]
  refine ⟨?_, ?_, ?_, ?_⟩
  · rw [hkey, check_pull_request_exists]
    cases hany : open_pr_titles.any (fun t => containsSub t.data syncMarker.data)
    · simp only [Bool.not_false, true_iff]
      exact (any_eq_false_iff _ _).mp hany
    · simp only [Bool.not_true, Bool.false_eq_true, false_iff]
      intro hall
      have hfalse := (any_eq_false_iff _ _).mpr hall
      rw [hfalse] at hany
      exact Bool.noConfusion hany
  · rw [hkey]
    cases check_pull_request_exists open_pr_titles <;> simp
  · cases hex : check_pull_request_exists open_pr_titles <;>
      simp [make_pull_request, hex]
  · have hd : (pr_title v).data
        = ("Important cookietemple template update ".data ++ v.data) ++
          " released!".data := rfl
    rw [hd, List.append_assoc]
    exact containsSub_append _ _ _

/-- C8 (witness): the gating facts with no open PRs and version 1.2.3. -/
theorem C8_pull_request_gating_witness :
    (((make_pull_request [] "1.2.3").1 = true ↔
      ∀ t ∈ ([] : List String), containsSub t.data syncMarker.data = false) ∧
    ((make_pull_request [] "1.2.3").1 = false ↔
      check_pull_request_exists [] = true) ∧
    ((make_pull_request [] "1.2.3").1 = true →
      (make_pull_request [] "1.2.3").2 = some (pr_title "1.2.3")) ∧
    containsSub (pr_title "1.2.3").data ("1.2.3" : String).data = true) :=
  C8_pull_request_gating [] "1.2.3"

/-- C9 (witness): the no-update tier passes under the strictest policy
`major`. -/
theorem C9_no_update_tier_allows_pr_witness :
    check_sync_level (some [("ct_sync_level", "major")]) false false false
      = some true :=
  C9_no_update_tier_allows_pr "major" (Or.inr (Or.inr rfl))

end Cookietemple
